import Mathlib

/-!
Verification development for the alux444/go-microserv-test repository: a Go
microservices scaffold (api-gateway plus user/order/inventory/notification
services built on gin), together with the dispatch-core design described by
its specification. Handlers, route tables and the user-service /users
endpoint are embedded from the Go sources; the dispatch core (circuit
breaker, retry policy, connection pool), which the repository's
documentation describes but whose code is absent, is modelled from the
specification text, with each such definition marked in its doc comment.
-/

namespace Microserv

/-- JSON values as produced by gin handlers through c.JSON: strings,
integers, arrays and objects (an object is an ordered list of key-value
fields, as gin.H literals are written in the sources). -/
inductive JSONValue where
  | str (s : String)
  | int (n : Int)
  | arr (elems : List JSONValue)
  | obj (fields : List (String × JSONValue))

/-- Field lookup in a JSON object: the value under the first field with the
given key, none for a missing key or a non-object. -/
def JSONValue.getField : JSONValue → String → Option JSONValue
  | .obj fields, k => (fields.find? (fun f => f.1 == k)).map Prod.snd
  | _, _ => none

/-- Status values admitted by the specification for the health endpoint
(section 6): healthy, degraded, unhealthy. -/
def healthStatusValues : List String := ["healthy", "degraded", "unhealthy"]

/-- Checks that an optional JSON value is a string drawn from
healthStatusValues. -/
def isHealthStatusStr : Option JSONValue → Bool
  | some (.str s) => healthStatusValues.contains s
  | _ => false

/-- Checks that an optional JSON value is a JSON array. -/
def isEndpointsArray : Option JSONValue → Bool
  | some (.arr _) => true
  | _ => false

/-- Shape the specification asserts for the health endpoint body (section 6,
written from the words of the spec for comparison with the code): an object
whose status field is one of healthy, degraded, unhealthy and whose
endpoints field is an array (of per-endpoint records). -/
def specHealthShapeCheck (body : JSONValue) : Bool :=
  isHealthStatusStr (body.getField "status") && isEndpointsArray (body.getField "endpoints")

/-- An inbound HTTP request, as far as the gin handlers in this repository
inspect it: a method and a path. -/
structure HTTPRequest where
  method : String
  path : String
deriving Repr, DecidableEq

/-- Observable effects a gin handler body can perform: writing a JSON
response with a status code, or making an outbound network call to a
downstream service. -/
inductive HandlerEffect where
  | jsonWrite (status : Nat) (body : JSONValue)
  | networkCall (target : String)

/-- Recognizes the network-call effect. -/
def HandlerEffect.isNetworkCall : HandlerEffect → Bool
  | .networkCall _ => true
  | _ => false

/-- Body written by the api-gateway GET /health handler
(api-gateway/cmd/main.go, the c.JSON(http.StatusOK, gin.H\x7b...\x7d) call):
the constant object with fields status = "healthy" and
service = "api-gateway". -/
def gatewayHealthBody : JSONValue :=
  .obj [("status", .str "healthy"), ("service", .str "api-gateway")]

/-- Body written by the api-gateway GET / handler: the constant greeting
object. -/
def gatewayRootBody : JSONValue :=
  .obj [("message", .str "Hello! - API Gateway")]

/-- Embedding of the api-gateway GET /health handler body: it ignores the
request and performs exactly one effect, the c.JSON(http.StatusOK, ...)
write of the constant gatewayHealthBody. No other statement occurs in the
handler, in particular no outbound call to any downstream service. -/
def gatewayHealthHandler (_c : HTTPRequest) : List HandlerEffect :=
  [HandlerEffect.jsonWrite 200 gatewayHealthBody]

/-- A registered route: the (method, path) pair passed to a gin
route-registration call. -/
structure Route where
  method : String
  path : String
deriving Repr, DecidableEq

/-- Routes registered by api-gateway main: router.GET("/health", ...) and
router.GET("/", ...). -/
def gatewayRoutes : List Route :=
  [{ method := "GET", path := "/health" }, { method := "GET", path := "/" }]

/-- Outcome of route resolution: dispatch to the handler of a registered
route, an HTTP redirect (status code and Location target), a 404 NotFound,
or a 405 MethodNotAllowed. -/
inductive RouteResult where
  | handler (r : Route)
  | redirect (status : Nat) (location : String)
  | notFound
  | methodNotAllowed
deriving Repr, DecidableEq

/-- Test for a path ending in a slash, written over the underlying
character list so it computes by structural recursion. -/
def lastCharIsSlash (s : String) : Bool := s.data.getLast? == some '/'

/-- The path with its last character removed (used only on paths ending in
a slash), written over the underlying character list. -/
def dropTrailingSlash (s : String) : String := ⟨s.data.dropLast⟩

/-- Trailing-slash near miss inside one method's own routing tree (gin's
tsr flag from getValue, for a flat static route set): the redirect target
is the request path with one trailing slash removed, when the path ends in
a slash and the shortened path is registered for this method, or with one
trailing slash added, when the lengthened path is registered for this
method; none when neither variant is registered. -/
def tsrTarget (routes : List Route) (method path : String) : Option String :=
  if lastCharIsSlash path
      && routes.any (fun r => r.method == method && r.path == dropTrailingSlash path) then
    some (dropTrailingSlash path)
  else if routes.any (fun r => r.method == method && r.path == path ++ "/") then
    some (path ++ "/")
  else none

/-- Fallback of gin's handleHTTPRequest after the request method's tree
produced neither a handler nor a redirect: a 405 only when
engine.HandleMethodNotAllowed is set and some other method's tree matches
the path, the 404 handler otherwise. -/
def ginNoRoute (routes : List Route) (handleMethodNotAllowed : Bool)
    (path : String) : RouteResult :=
  if handleMethodNotAllowed && routes.any (fun r => r.path == path) then
    RouteResult.methodNotAllowed
  else RouteResult.notFound

/-- Resolution performed by gin's engine, following handleHTTPRequest over
a flat static route set: an exact (method, path) match in the request
method's tree dispatches to that route's handler; failing that, when the
method has a tree, the path is not "/" and RedirectTrailingSlash is set,
a trailing-slash near miss is answered with a redirect — 301 for GET, 307
for other methods; otherwise resolution falls through to ginNoRoute (405
only under HandleMethodNotAllowed, else 404). gin.New() — and therefore
gin.Default(), which the gateway main uses — sets
HandleMethodNotAllowed = false and RedirectTrailingSlash = true.
RedirectFixedPath, false by default and not enabled here, adds no case,
and no CONNECT routes exist. -/
def ginResolve (routes : List Route) (handleMethodNotAllowed : Bool)
    (redirectTrailingSlash : Bool) (method path : String) : RouteResult :=
  match routes.find? (fun r => r.method == method && r.path == path) with
  | some r => RouteResult.handler r
  | none =>
    if (routes.any fun r => r.method == method) && !(path == "/")
        && redirectTrailingSlash then
      match tsrTarget routes method path with
      | some loc => RouteResult.redirect (if method == "GET" then 301 else 307) loc
      | none => ginNoRoute routes handleMethodNotAllowed path
    else
      ginNoRoute routes handleMethodNotAllowed path

/-- The api-gateway router as built in main: gin.Default(), so
HandleMethodNotAllowed is false and RedirectTrailingSlash is true, with
gatewayRoutes registered. -/
def gatewayResolve (method path : String) : RouteResult :=
  ginResolve gatewayRoutes false true method path

/-- What a registered handler does, as written in the sources: either a
constant c.JSON write (status code and body), or the user-service /users
listing, which computes its body from the database. -/
inductive HandlerKind where
  | constJSON (status : Nat) (body : JSONValue)
  | usersListing

/-- Recognizes a placeholder health-check handler: a constant 200 JSON write
of an object of the exact shape \x7bstatus: "healthy", service: <name>\x7d. -/
def isPlaceholderHealthCheck : HandlerKind → Bool
  | .constJSON 200 (.obj [("status", .str "healthy"), ("service", .str _)]) => true
  | _ => false

/-- One route-registration call appearing in a service's main function:
the service it belongs to, the method-name identifier written on the router
value, the path argument, and the handler passed. -/
structure Registration where
  service : String
  registerName : String
  path : String
  handlerKind : HandlerKind

/-- Route-registration method names exported by gin's Engine/RouterGroup
(Go method names are case-sensitive and only these exist; a lowercase
router.get(...) call does not compile). -/
def ginRouteRegistrationMethods : List String :=
  ["Handle", "Any", "GET", "POST", "DELETE", "PATCH", "PUT", "OPTIONS",
   "HEAD", "Match", "StaticFile", "StaticFileFS", "Static", "StaticFS"]

/-- Every route-registration call in the repository's five mains, in file
order: api-gateway (GET /health, GET /), inventory-service (get /health),
notification-service (get /health), order-service (get /health), and
user-service (GET /health, GET /users). The three stub services write
router.get with a lowercase g; the others write router.GET. -/
def repoRegistrations : List Registration :=
  [{ service := "api-gateway", registerName := "GET", path := "/health",
     handlerKind := .constJSON 200 gatewayHealthBody },
   { service := "api-gateway", registerName := "GET", path := "/",
     handlerKind := .constJSON 200 gatewayRootBody },
   { service := "inventory-service", registerName := "get", path := "/health",
     handlerKind := .constJSON 200 (.obj [("status", .str "healthy"), ("service", .str "inventory-service")]) },
   { service := "notification-service", registerName := "get", path := "/health",
     handlerKind := .constJSON 200 (.obj [("status", .str "healthy"), ("service", .str "notification-service")]) },
   { service := "order-service", registerName := "get", path := "/health",
     handlerKind := .constJSON 200 (.obj [("status", .str "healthy"), ("service", .str "order-service")]) },
   { service := "user-service", registerName := "GET", path := "/health",
     handlerKind := .constJSON 200 (.obj [("status", .str "healthy"), ("service", .str "user-service")]) },
   { service := "user-service", registerName := "GET", path := "/users",
     handlerKind := .usersListing }]

/-- The registrations whose method-name identifier is not a gin
route-registration method (they cannot compile). -/
def invalidRegistrations : List Registration :=
  repoRegistrations.filter (fun r => !(ginRouteRegistrationMethods.contains r.registerName))

/-- The registrations whose method-name identifier is a valid gin
route-registration method. -/
def validRegistrations : List Registration :=
  repoRegistrations.filter (fun r => ginRouteRegistrationMethods.contains r.registerName)

/-- A row of the selected columns of user_service.users as the /users
handler's Scan target: the Go struct User with fields ID, Email, Username
and JSON tags id, email, username. -/
structure User where
  id : Int
  email : String
  username : String
deriving Repr, DecidableEq

/-- A full row of the user_service.users table as created by the schema
file: id, email, username, password_hash, created_at omitted (never
selected), first_name, last_name. -/
structure UsersTableRow where
  id : Int
  email : String
  username : String
  password_hash : String
  first_name : Option String
  last_name : Option String

/-- Result set of the handler's query
SELECT id, email, username FROM user_service.users LIMIT 10:
at most 10 rows of the table, each projected to the three selected
columns. -/
def runUsersQuery (table : List UsersTableRow) : List User :=
  (table.take 10).map fun r => { id := r.id, email := r.email, username := r.username }

/-- Rows as delivered to the handler by the database driver: row i of the
result set is delivered either as a value that rows.Scan reads successfully
(some) or as a row on which rows.Scan fails (none). -/
def deliverRows (qres : List User) (scanOk : List Bool) : List (Option User) :=
  List.zipWith (fun u ok => if ok then some u else none) qres scanOk

/-- Responses the /users handler can write: the c.JSON(500, gin.H\x7b"error":
...\x7d) write on a query error, or the c.JSON(200, gin.H\x7b"users": ...\x7d)
write of the scanned users. -/
inductive GinResponse where
  | errorJSON (status : Nat) (message : String)
  | usersJSON (status : Nat) (users : List User)
deriving Repr, DecidableEq

/-- Everything observable about one run of the /users handler: the responses
written to the client in order, whether Close and Next were invoked on a nil
rows value, and whether the run panicked. -/
structure UsersHandlerRun where
  responses : List GinResponse
  closeCalledOnNilRows : Bool
  nextCalledOnNilRows : Bool
  panicked : Bool
deriving Repr, DecidableEq

/-- The rows.Next / rows.Scan loop of the /users handler: a row whose Scan
call fails is skipped by continue, a scanned row is appended to users, so
the loop returns the successfully scanned users in order. -/
def scanUsersLoop : List (Option User) → List User
  | [] => []
  | none :: rest => scanUsersLoop rest
  | some u :: rest => u :: scanUsersLoop rest

/-- Embedding of the user-service GET /users handler. queryResult is what
db.Query returns: an error, or the list of driver rows (each scannable or
not). On a query error the handler writes the 500 response but has no
return statement, so control falls through to defer rows.Close() and the
rows.Next() loop with rows = nil: both Close and Next get invoked on the
nil rows value. In Go, (*sql.Rows).Next on a nil receiver dereferences nil
and panics (gin's Recovery middleware turns that into a 500);
nilNextPanics = true selects that semantics, while nilNextPanics = false
selects the counterfactual in which the nil-receiver calls return zero
values, whereupon the loop body never runs and the handler writes a second,
200 response with an empty users list. On a successful query the handler
scans the rows and writes the single 200 response. -/
def getUsersHandler (queryResult : Except String (List (Option User)))
    (nilNextPanics : Bool) : UsersHandlerRun :=
  match queryResult with
  | .error e =>
    if nilNextPanics then
      { responses := [GinResponse.errorJSON 500 e]
        closeCalledOnNilRows := true
        nextCalledOnNilRows := true
        panicked := true }
    else
      { responses := [GinResponse.errorJSON 500 e, GinResponse.usersJSON 200 []]
        closeCalledOnNilRows := true
        nextCalledOnNilRows := true
        panicked := false }
  | .ok rows =>
    { responses := [GinResponse.usersJSON 200 (scanUsersLoop rows)]
      closeCalledOnNilRows := false
      nextCalledOnNilRows := false
      panicked := false }

/-- JSON serialization of the Go User struct, following its json tags: the
three fields id, email, username, in declaration order and nothing else. -/
def serializeUser (u : User) : List (String × JSONValue) :=
  [("id", JSONValue.int u.id), ("email", JSONValue.str u.email),
   ("username", JSONValue.str u.username)]

/-- Keys of the serialized User object. -/
def userJSONKeys : List String := ["id", "email", "username"]

/-- Modelled from the spec: circuit state of a Health Record (sections 3 and
4.2 describe Closed/Open/HalfOpen; the code of the dispatch core is absent
from the repository). Open carries the absolute time at which the cooldown
window ends; a call arriving at or after that time is the HalfOpen trial
call, so HalfOpen needs no stored constructor of its own. -/
inductive Circuit where
  | Closed
  | Open (openUntil : Nat)
deriving Repr, DecidableEq

/-- Modelled from the spec: per-endpoint Health Record (section 3) — last
success time, consecutive transport-failure count, circuit state. -/
structure HealthRecord where
  lastSuccess : Option Nat
  consecutiveFailures : Nat
  circuit : Circuit
deriving Repr, DecidableEq

/-- Modelled from the spec: a Capability Endpoint (section 3) as far as the
dispatch claims need it — name, idempotency flag, retry policy's max
attempts, circuit-breaker threshold K, and cooldown window length. -/
structure CapabilityEndpoint where
  name : String
  idempotent : Bool
  maxAttempts : Nat
  failureThreshold : Nat
  cooldown : Nat
deriving Repr, DecidableEq

/-- Outcome of one transport-level attempt against an endpoint: a response,
or a transport-level failure (connection reset, timeout). -/
inductive TransportOutcome where
  | ok (resp : String)
  | transportFailure
deriving Repr, DecidableEq

/-- Modelled from the spec: the sync-dispatch error kinds the claims
mention, from the section 7 taxonomy. -/
inductive DispatchError where
  | CircuitOpen
  | UpstreamUnavailable
deriving Repr, DecidableEq

/-- Modelled from the spec: the attempt loop of section 4.2. transport gives
the network's behavior on each successive attempt (0-indexed); the loop
stops at the first success or after the allowed number of attempts, and
returns the response (if any) together with the number of transport
attempts actually performed. -/
def runAttempts (transport : Nat → TransportOutcome) : Nat → Nat → Option String × Nat
  | _, 0 => (none, 0)
  | attempt, remaining + 1 =>
    match transport attempt with
    | .ok resp => (some resp, 1)
    | .transportFailure =>
      let r := runAttempts transport (attempt + 1) remaining
      (r.1, r.2 + 1)

/-- Modelled from the spec: synchronous dispatch of one call (section 4.2).
The circuit is consulted first: during Open (now strictly before openUntil)
the call fails fast with CircuitOpen, performing zero transport attempts
and leaving the Health Record unchanged. A call at or after openUntil is
the HalfOpen trial: a single attempt whose success closes the circuit and
whose failure reopens it for a fresh cooldown. With the circuit Closed, an
idempotent endpoint is allowed up to maxAttempts attempts and a
non-idempotent endpoint exactly one; exhausting the attempts surfaces
UpstreamUnavailable, increments the consecutive-failure count, and opens
the circuit for the cooldown window once that count reaches
failureThreshold (K); a success records lastSuccess, resets the failure
count and keeps the circuit Closed. Returns (result, new record, number of
transport attempts performed). -/
def syncDispatch (ep : CapabilityEndpoint) (now : Nat) (hr : HealthRecord)
    (transport : Nat → TransportOutcome) :
    Except DispatchError String × HealthRecord × Nat :=
  match hr.circuit with
  | .Open u =>
    if now < u then
      (Except.error DispatchError.CircuitOpen, hr, 0)
    else
      match runAttempts transport 0 1 with
      | (some resp, n) =>
        (Except.ok resp,
         { lastSuccess := some now, consecutiveFailures := 0, circuit := .Closed }, n)
      | (none, n) =>
        (Except.error DispatchError.UpstreamUnavailable,
         { lastSuccess := hr.lastSuccess,
           consecutiveFailures := hr.consecutiveFailures + 1,
           circuit := .Open (now + ep.cooldown) }, n)
  | .Closed =>
    let allowed := if ep.idempotent then ep.maxAttempts else 1
    match runAttempts transport 0 allowed with
    | (some resp, n) =>
      (Except.ok resp,
       { lastSuccess := some now, consecutiveFailures := 0, circuit := .Closed }, n)
    | (none, n) =>
      let fails := hr.consecutiveFailures + 1
      (Except.error DispatchError.UpstreamUnavailable,
       { lastSuccess := hr.lastSuccess,
         consecutiveFailures := fails,
         circuit := if ep.failureThreshold ≤ fails then .Open (now + ep.cooldown)
                    else .Closed }, n)

/-- A transport that fails every attempt (a mock that always throws a
connection reset, as in the section 8 scenario). -/
def alwaysFailTransport : Nat → TransportOutcome := fun _ => TransportOutcome.transportFailure

/-- Concrete endpoint for the circuit-breaker scenario: K = 3, cooldown 5,
non-idempotent. -/
def breakerScenarioEndpoint : CapabilityEndpoint :=
  { name := "user-capability", idempotent := false, maxAttempts := 1,
    failureThreshold := 3, cooldown := 5 }

/-- Concrete idempotent endpoint for the retry scenario: max 3 attempts. -/
def retryScenarioEndpoint : CapabilityEndpoint :=
  { name := "user-capability", idempotent := true, maxAttempts := 3,
    failureThreshold := 3, cooldown := 5 }

/-- A fresh Health Record: no success yet, zero consecutive failures,
circuit Closed. -/
def freshRecord : HealthRecord :=
  { lastSuccess := none, consecutiveFailures := 0, circuit := .Closed }

/-- Modelled from the spec: state of the Connection Pool (section 3; the
pool's code is absent from the repository) — connection ids currently free
in the pool, and checked-out connections each tagged with the id of the
in-flight request (caller) holding it. -/
structure PoolState where
  free : List Nat
  held : List (Nat × Nat)
deriving Repr, DecidableEq

/-- Modelled from the spec: pool transitions (sections 3 and 5). A caller
acquires a connection only from the free list, checking it out exclusively;
the holder of a connection either returns it to the pool or discards it on
failure. Concurrent execution is the interleaving of these atomic
transitions (the spec requires exclusive, short-held locking around
acquire/release only). -/
inductive PoolStep : PoolState → PoolState → Prop where
  | acquire (s : PoolState) (c caller : Nat) (hc : c ∈ s.free) :
      PoolStep s { free := s.free.erase c, held := (c, caller) :: s.held }
  | release (s : PoolState) (c caller : Nat) (hc : (c, caller) ∈ s.held) :
      PoolStep s { free := c :: s.free, held := s.held.erase (c, caller) }
  | discard (s : PoolState) (c caller : Nat) (hc : (c, caller) ∈ s.held) :
      PoolStep s { free := s.free, held := s.held.erase (c, caller) }

/-- A pool of n distinct connections, all free, none held. -/
def initPool (n : Nat) : PoolState := { free := List.range n, held := [] }

/-- Invariant of the pool: free connection ids are distinct, held connection
ids are distinct, and no connection is simultaneously free and held. -/
def PoolInv (s : PoolState) : Prop :=
  s.free.Nodup ∧ (s.held.map Prod.fst).Nodup ∧
    ∀ c ∈ s.free, c ∉ s.held.map Prod.fst

/-! Helper lemmas. -/

/-- The scan loop returns exactly the successfully scanned rows. -/
theorem scanUsersLoop_eq_filterMap (rows : List (Option User)) :
    scanUsersLoop rows = rows.filterMap id := by
  induction rows with
  | nil => rfl
  | cons hd tl ih => cases hd <;> simp [scanUsersLoop, ih]

/-- The scan loop never returns more users than it was given rows. -/
theorem scanUsersLoop_length_le (rows : List (Option User)) :
    (scanUsersLoop rows).length ≤ rows.length := by
  induction rows with
  | nil => exact Nat.le_refl 0
  | cons hd tl ih =>
    cases hd with
    | none => exact Nat.le_trans (by simpa [scanUsersLoop] using ih) (Nat.le_succ _)
    | some u => simpa [scanUsersLoop] using Nat.succ_le_succ ih

/-- Against a transport that fails every attempt, the attempt loop performs
exactly the allowed number of attempts and yields no response. -/
theorem runAttempts_allFail (transport : Nat → TransportOutcome)
    (hfail : ∀ i, transport i = TransportOutcome.transportFailure) :
    ∀ start remaining, runAttempts transport start remaining = (none, remaining) := by
  intro start remaining
  induction remaining generalizing start with
  | zero => rfl
  | succ r ih => simp [runAttempts, hfail start, ih]

/-- In a pair list with distinct keys, membership determines the value. -/
theorem heldKeys_eq_of_nodup {l : List (Nat × Nat)} (h : (l.map Prod.fst).Nodup)
    {c a b : Nat} (ha : (c, a) ∈ l) (hb : (c, b) ∈ l) : a = b := by
  induction l with
  | nil => cases ha
  | cons p t ih =>
    rw [List.map_cons, List.nodup_cons] at h
    rcases List.mem_cons.mp ha with ha1 | ha2
    · rcases List.mem_cons.mp hb with hb1 | hb2
      · rw [← ha1] at hb1
        exact (Prod.mk.injEq c a c b ▸ hb1.symm).2
      · exfalso
        apply h.1
        rw [← ha1]
        exact List.mem_map.mpr ⟨(c, b), hb2, rfl⟩
    · rcases List.mem_cons.mp hb with hb1 | hb2
      · exfalso
        apply h.1
        rw [← hb1]
        exact List.mem_map.mpr ⟨(c, a), ha2, rfl⟩
      · exact ih h.2 ha2 hb2

/-- Every pool transition preserves the pool invariant. -/
theorem poolInv_step {s s2 : PoolState} (hinv : PoolInv s) (hstep : PoolStep s s2) :
    PoolInv s2 := by
  obtain ⟨hfree, hheld, hdisj⟩ := hinv
  cases hstep with
  | acquire c caller hc =>
    refine ⟨hfree.erase c, ?_, ?_⟩
    · rw [List.map_cons, List.nodup_cons]
      exact ⟨hdisj c hc, hheld⟩
    · intro x hx hxk
      rw [List.map_cons, List.mem_cons] at hxk
      rcases hxk with hxc | hxk2
      · exact ((hfree.mem_erase_iff).mp hx).1 hxc
      · exact hdisj x (List.mem_of_mem_erase hx) hxk2
  | release c caller hc =>
    have hkey : c ∈ s.held.map Prod.fst := List.mem_map.mpr ⟨(c, caller), hc, rfl⟩
    have hcfree : c ∉ s.free := fun hcf => hdisj c hcf hkey
    have hheldNodup : s.held.Nodup := hheld.of_map
    have hcgone : c ∉ (s.held.erase (c, caller)).map Prod.fst := by
      intro hck
      rcases List.mem_map.mp hck with ⟨⟨c2, b⟩, hpair, hfst⟩
      obtain rfl : c2 = c := hfst
      have hbmem : (c2, b) ∈ s.held := List.mem_of_mem_erase hpair
      obtain rfl : b = caller := heldKeys_eq_of_nodup hheld hbmem hc
      exact ((hheldNodup.mem_erase_iff).mp hpair).1 rfl
    refine ⟨List.nodup_cons.mpr ⟨hcfree, hfree⟩, ?_, ?_⟩
    · exact List.Nodup.sublist ((List.erase_sublist (c, caller) s.held).map Prod.fst) hheld
    · intro x hx hxk
      rcases List.mem_cons.mp hx with hxc | hxf
      · exact hcgone (hxc ▸ hxk)
      · exact hdisj x hxf (((List.erase_sublist _ _).map Prod.fst).subset hxk)
  | discard c caller hc =>
    refine ⟨hfree, ?_, ?_⟩
    · exact List.Nodup.sublist ((List.erase_sublist (c, caller) s.held).map Prod.fst) hheld
    · intro x hx hxk
      exact hdisj x hx (((List.erase_sublist _ _).map Prod.fst).subset hxk)

/-- When the request method's tree yields no exact match and no
trailing-slash near miss, gin resolution with HandleMethodNotAllowed off
reaches the 404 handler whatever the redirect flag. -/
theorem ginResolve_noMatch (routes : List Route) (rts : Bool) (method path : String)
    (hfind : routes.find? (fun r => r.method == method && r.path == path) = none)
    (htsr : tsrTarget routes method path = none) :
    ginResolve routes false rts method path = RouteResult.notFound := by
  unfold ginResolve
  rw [hfind, htsr]
  simp [ginNoRoute]

/-- With HandleMethodNotAllowed off, gin resolution never produces a 405,
whatever the routes, redirect flag and request. -/
theorem ginResolve_no405 (routes : List Route) (rts : Bool) (method path : String) :
    ginResolve routes false rts method path ≠ RouteResult.methodNotAllowed := by
  unfold ginResolve
  cases hfind : routes.find? (fun r => r.method == method && r.path == path) with
  | some r => simp
  | none =>
    dsimp only
    split
    · cases htsr : tsrTarget routes method path <;> simp [ginNoRoute]
    · simp [ginNoRoute]

/-- Every pool state reachable from an initial pool satisfies the
invariant. -/
theorem poolInv_reachable {n : Nat} {s : PoolState}
    (h : Relation.ReflTransGen PoolStep (initPool n) s) : PoolInv s := by
  induction h with
  | refl =>
    refine ⟨?_, ?_, ?_⟩
    · simpa [initPool] using List.nodup_range n
    · simp [initPool]
    · simp [initPool]
  | tail h1 hstep ih => exact poolInv_step ih hstep

/-! Claim theorems. -/

/-- C1 (counterexample): the body the api-gateway health endpoint actually
writes for GET /health is the constant \x7bstatus: "healthy", service:
"api-gateway"\x7d, and it does not have the claimed shape \x7bstatus:
healthy|degraded|unhealthy, endpoints: [...]\x7d — the endpoints field is
absent. -/
theorem gatewayHealthBody_not_specShape :
    gatewayHealthHandler { method := "GET", path := "/health" } =
      [HandlerEffect.jsonWrite 200 gatewayHealthBody] ∧
    specHealthShapeCheck gatewayHealthBody = false :=
  ⟨rfl, rfl⟩

/-- C1 (amended): for every request, the api-gateway health endpoint writes
the fixed body \x7bstatus: "healthy", service: "api-gateway"\x7d; its status
field is the constant "healthy" and it carries no endpoints field. -/
theorem gatewayHealth_constBody (req : HTTPRequest) :
    gatewayHealthHandler req = [HandlerEffect.jsonWrite 200 gatewayHealthBody] ∧
    gatewayHealthBody.getField "status" = some (JSONValue.str "healthy") ∧
    gatewayHealthBody.getField "service" = some (JSONValue.str "api-gateway") ∧
    gatewayHealthBody.getField "endpoints" = none :=
  ⟨rfl, rfl, rfl, rfl⟩

/-- C2 (counterexample): POST /health matches the registered path /health
but no registered method, and the gateway router resolves it to NotFound,
not MethodNotAllowed — gin.Default() leaves HandleMethodNotAllowed
disabled. -/
theorem postHealth_notFound_not405 :
    (gatewayRoutes.any fun r => r.path == "/health") = true ∧
    (gatewayRoutes.all fun r => !(r.method == "POST" && r.path == "/health")) = true ∧
    gatewayResolve "POST" "/health" = RouteResult.notFound ∧
    gatewayResolve "POST" "/health" ≠ RouteResult.methodNotAllowed := by
  refine ⟨rfl, rfl, rfl, ?_⟩
  decide

/-- C2 (amended): every registered (method, path) resolves to its route's
handler; a trailing-slash near miss of a route of the request's method is
answered with a redirect (GET /health/ gets a 301 to /health, per
gin.Default()'s RedirectTrailingSlash = true); a request whose path matches
no registered route, and for which the request method's tree has no
trailing-slash near miss, resolves to NotFound; a request whose path
matches a route but whose method does not also resolves to NotFound; and
the gateway router never produces MethodNotAllowed, since gin.Default()
sets HandleMethodNotAllowed = false. -/
theorem gatewayRouting (method path : String) :
    (∀ r ∈ gatewayRoutes, gatewayResolve r.method r.path = RouteResult.handler r) ∧
    gatewayResolve "GET" "/health/" = RouteResult.redirect 301 "/health" ∧
    ((∀ r ∈ gatewayRoutes, r.path ≠ path) →
      tsrTarget gatewayRoutes method path = none →
      gatewayResolve method path = RouteResult.notFound) ∧
    ((∃ r ∈ gatewayRoutes, r.path = path) →
      (∀ r ∈ gatewayRoutes, ¬(r.method = method ∧ r.path = path)) →
      gatewayResolve method path = RouteResult.notFound) ∧
    gatewayResolve method path ≠ RouteResult.methodNotAllowed := by
  refine ⟨by decide, by decide, ?_, ?_, ?_⟩
  · intro h htsr
    have h1 : ("/health" == path) = false :=
      beq_eq_false_iff_ne.mpr (h { method := "GET", path := "/health" } (by decide))
    have h2 : ("/" == path) = false :=
      beq_eq_false_iff_ne.mpr (h { method := "GET", path := "/" } (by decide))
    have hfind : gatewayRoutes.find?
        (fun r => r.method == method && r.path == path) = none := by
      simp [gatewayRoutes, List.find?, h1, h2]
    exact ginResolve_noMatch gatewayRoutes true method path hfind htsr
  · rintro ⟨r, hr, hpath⟩ hm
    have hrr : r = { method := "GET", path := "/health" } ∨
        r = ({ method := "GET", path := "/" } : Route) := by
      simpa [gatewayRoutes] using hr
    rcases hrr with rfl | rfl
    · subst hpath
      have hme : ("GET" == method) = false :=
        beq_eq_false_iff_ne.mpr
          (fun he => hm { method := "GET", path := "/health" } (by decide) ⟨he, rfl⟩)
      simp [gatewayResolve, ginResolve, gatewayRoutes, List.find?, List.any,
        hme, ginNoRoute]
    · subst hpath
      have hme : ("GET" == method) = false :=
        beq_eq_false_iff_ne.mpr
          (fun he => hm { method := "GET", path := "/" } (by decide) ⟨he, rfl⟩)
      simp [gatewayResolve, ginResolve, gatewayRoutes, List.find?, List.any,
        hme, ginNoRoute]
  · exact ginResolve_no405 gatewayRoutes true method path

/-- C2 (witness): the amended routing theorem applied at concrete inputs —
an unregistered path with no trailing-slash near miss resolves to NotFound,
a method mismatch on the registered path / resolves to NotFound, and
POST /nope is not answered with MethodNotAllowed. -/
theorem gatewayRouting_witness :
    gatewayResolve "GET" "/nope" = RouteResult.notFound ∧
    gatewayResolve "POST" "/" = RouteResult.notFound ∧
    gatewayResolve "POST" "/nope" ≠ RouteResult.methodNotAllowed :=
  ⟨(gatewayRouting "GET" "/nope").2.2.1 (by decide) (by decide),
   (gatewayRouting "POST" "/").2.2.2.1
     ⟨{ method := "GET", path := "/" }, by decide, rfl⟩ (by decide),
   (gatewayRouting "POST" "/nope").2.2.2.2⟩

/-- C3 (counterexample): three route-registration calls in the repository —
one each in inventory-service, notification-service and order-service — use
the invalid lowercase method name get, so the number of invalid
registrations is 3, not 1. -/
theorem invalidRegistrations_three :
    invalidRegistrations.map Registration.service =
      ["inventory-service", "notification-service", "order-service"] ∧
    invalidRegistrations.length = 3 ∧ invalidRegistrations.length ≠ 1 :=
  ⟨rfl, rfl, by decide⟩

/-- C3 (amended): exactly three route-registration calls — the /health
registrations of inventory-, notification- and order-service, written
router.get — use an invalid method name; every other registration uses the
valid method GET, and apart from the gateway's root greeting and the user
service's /users listing those handlers are placeholder health checks. -/
theorem registrationAudit :
    invalidRegistrations.map Registration.service =
      ["inventory-service", "notification-service", "order-service"] ∧
    (invalidRegistrations.all fun r => r.registerName == "get" && r.path == "/health") = true ∧
    (validRegistrations.all fun r => r.registerName == "GET") = true ∧
    (validRegistrations.all fun r =>
      isPlaceholderHealthCheck r.handlerKind
        || (r.service == "api-gateway" && r.path == "/")
        || (r.service == "user-service" && r.path == "/users")) = true :=
  ⟨rfl, rfl, rfl, rfl⟩

/-- C4: the health endpoint read performs no network call to any downstream
service — its only effect, on every request, is writing the constant cached
body (the handler body is a single constant c.JSON call). -/
theorem healthRead_noNetworkCalls (req : HTTPRequest) :
    (∀ e ∈ gatewayHealthHandler req, e.isNetworkCall = false) ∧
    gatewayHealthHandler req = [HandlerEffect.jsonWrite 200 gatewayHealthBody] := by
  refine ⟨?_, rfl⟩
  intro e he
  rw [gatewayHealthHandler, List.mem_singleton] at he
  subst he
  rfl

/-- C5: with a transport that fails every attempt — (a) a call that brings
the consecutive-failure count up to the threshold K leaves the circuit Open
until now + cooldown and surfaces UpstreamUnavailable; (b) below the
threshold the circuit stays Closed and the failure count increments, so K
consecutive failing calls from a fresh record do open the circuit; (c) any
call dispatched while the circuit is Open, within the cooldown window,
returns CircuitOpen with the Health Record unchanged and zero transport
attempts performed. -/
theorem circuitBreaker (ep : CapabilityEndpoint) (now u : Nat) (hr : HealthRecord)
    (transport : Nat → TransportOutcome)
    (hfail : ∀ i, transport i = TransportOutcome.transportFailure) :
    (hr.circuit = Circuit.Closed → ep.failureThreshold ≤ hr.consecutiveFailures + 1 →
      (syncDispatch ep now hr transport).2.1.circuit = Circuit.Open (now + ep.cooldown) ∧
      (syncDispatch ep now hr transport).1 = Except.error DispatchError.UpstreamUnavailable) ∧
    (hr.circuit = Circuit.Closed → hr.consecutiveFailures + 1 < ep.failureThreshold →
      (syncDispatch ep now hr transport).2.1.circuit = Circuit.Closed ∧
      (syncDispatch ep now hr transport).2.1.consecutiveFailures =
        hr.consecutiveFailures + 1) ∧
    (hr.circuit = Circuit.Open u → now < u →
      syncDispatch ep now hr transport = (Except.error DispatchError.CircuitOpen, hr, 0)) := by
  have hrun : ∀ a, runAttempts transport 0 a = (none, a) :=
    fun a => runAttempts_allFail transport hfail 0 a
  refine ⟨?_, ?_, ?_⟩
  · intro hc hK
    constructor <;> simp [syncDispatch, hc, hrun, hK]
  · intro hc hlt
    have hn : ¬ ep.failureThreshold ≤ hr.consecutiveFailures + 1 := by omega
    constructor <;> simp [syncDispatch, hc, hrun, hn]
  · intro hc hlt
    simp [syncDispatch, hc, hlt]

/-- C5 (witness): with K = 3 and cooldown 5, the third consecutive failing
call at time 10 opens the circuit until 15, and a call at time 20 against a
circuit open until 25 fails with CircuitOpen, unchanged record, zero
attempts. -/
theorem circuitBreaker_witness :
    (syncDispatch breakerScenarioEndpoint 10
        { lastSuccess := none, consecutiveFailures := 2, circuit := Circuit.Closed }
        alwaysFailTransport).2.1.circuit = Circuit.Open 15 ∧
    syncDispatch breakerScenarioEndpoint 20
        { lastSuccess := none, consecutiveFailures := 3, circuit := Circuit.Open 25 }
        alwaysFailTransport =
      (Except.error DispatchError.CircuitOpen,
       { lastSuccess := none, consecutiveFailures := 3, circuit := Circuit.Open 25 }, 0) :=
  ⟨((circuitBreaker breakerScenarioEndpoint 10 0
      { lastSuccess := none, consecutiveFailures := 2, circuit := Circuit.Closed }
      alwaysFailTransport (fun _ => rfl)).1 rfl (by decide)).1,
   (circuitBreaker breakerScenarioEndpoint 20 25
      { lastSuccess := none, consecutiveFailures := 3, circuit := Circuit.Open 25 }
      alwaysFailTransport (fun _ => rfl)).2.2 rfl (by decide)⟩

/-- C6: with the circuit Closed — an idempotent endpoint facing a transport
that fails every attempt performs exactly its configured maxAttempts
transport attempts and surfaces UpstreamUnavailable; a non-idempotent
endpoint performs exactly one transport attempt whatever the transport
does, and a transport failure on that single attempt is surfaced
immediately as UpstreamUnavailable. -/
theorem retryPolicy (ep : CapabilityEndpoint) (now : Nat) (hr : HealthRecord)
    (transport : Nat → TransportOutcome) (hclosed : hr.circuit = Circuit.Closed) :
    (ep.idempotent = true → (∀ i, transport i = TransportOutcome.transportFailure) →
      (syncDispatch ep now hr transport).1 = Except.error DispatchError.UpstreamUnavailable ∧
      (syncDispatch ep now hr transport).2.2 = ep.maxAttempts) ∧
    (ep.idempotent = false →
      (syncDispatch ep now hr transport).2.2 = 1 ∧
      (transport 0 = TransportOutcome.transportFailure →
        (syncDispatch ep now hr transport).1 =
          Except.error DispatchError.UpstreamUnavailable)) := by
  constructor
  · intro hid hfail
    have hrun := runAttempts_allFail transport hfail 0 ep.maxAttempts
    constructor <;> simp [syncDispatch, hclosed, hid, hrun]
  · intro hid
    constructor
    · cases h0 : transport 0 with
      | ok resp => simp [syncDispatch, hclosed, hid, runAttempts, h0]
      | transportFailure => simp [syncDispatch, hclosed, hid, runAttempts, h0]
    · intro h0
      simp [syncDispatch, hclosed, hid, runAttempts, h0]

/-- C6 (witness): the idempotent scenario endpoint (max 3 attempts) against
an always-failing transport surfaces UpstreamUnavailable after exactly 3
attempts; the non-idempotent scenario endpoint performs exactly 1
attempt. -/
theorem retryPolicy_witness :
    (syncDispatch retryScenarioEndpoint 0 freshRecord alwaysFailTransport).1 =
      Except.error DispatchError.UpstreamUnavailable ∧
    (syncDispatch retryScenarioEndpoint 0 freshRecord alwaysFailTransport).2.2 = 3 ∧
    (syncDispatch breakerScenarioEndpoint 0 freshRecord alwaysFailTransport).2.2 = 1 :=
  ⟨((retryPolicy retryScenarioEndpoint 0 freshRecord alwaysFailTransport rfl).1
      rfl (fun _ => rfl)).1,
   ((retryPolicy retryScenarioEndpoint 0 freshRecord alwaysFailTransport rfl).1
      rfl (fun _ => rfl)).2,
   ((retryPolicy breakerScenarioEndpoint 0 freshRecord alwaysFailTransport rfl).2 rfl).1⟩

/-- C7: in every pool state reachable from an initial pool by any
interleaving of acquire/release/discard transitions, no pooled connection
is held by two callers simultaneously: two in-flight holders of the same
connection id are the same caller. -/
theorem pooledConnectionExclusive (n : Nat) (s : PoolState)
    (hreach : Relation.ReflTransGen PoolStep (initPool n) s)
    (c caller1 caller2 : Nat)
    (h1 : (c, caller1) ∈ s.held) (h2 : (c, caller2) ∈ s.held) :
    caller1 = caller2 :=
  heldKeys_eq_of_nodup (poolInv_reachable hreach).2.1 h1 h2

/-- C7 (witness): the exclusivity theorem applied to the concrete reachable
state in which caller 7 has acquired connection 0 from a one-connection
pool. -/
theorem pooledConnectionExclusive_witness : (7 : Nat) = 7 :=
  pooledConnectionExclusive 1 { free := [], held := [(0, 7)] }
    (Relation.ReflTransGen.single
      (show PoolStep (initPool 1) { free := [], held := [(0, 7)] } from
        PoolStep.acquire (initPool 1) 0 7 (by decide)))
    0 7 7 (by simp) (by simp)

/-- C8: when db.Query fails, the /users handler writes the 500 error
response but does not return: execution falls through, Close and Next are
invoked on the nil rows value, the run panics under Go's actual
nil-receiver semantics, and absent that panic (nil calls returning zero
values) a second, 200 response is written for the same request. -/
theorem usersHandler_fallthrough (e : String) :
    (getUsersHandler (Except.error e) true).responses = [GinResponse.errorJSON 500 e] ∧
    (getUsersHandler (Except.error e) true).nextCalledOnNilRows = true ∧
    (getUsersHandler (Except.error e) true).closeCalledOnNilRows = true ∧
    (getUsersHandler (Except.error e) true).panicked = true ∧
    (getUsersHandler (Except.error e) false).responses =
      [GinResponse.errorJSON 500 e, GinResponse.usersJSON 200 []] :=
  ⟨rfl, rfl, rfl, rfl, rfl⟩

/-- C9: every successful GET /users request returns a single 200 response
whose users list has at most 10 entries (the query carries LIMIT 10), and
every returned user serializes to exactly the fields id, email,
username. -/
theorem usersHandler_limit (table : List UsersTableRow) (scanOk : List Bool) (b : Bool) :
    (getUsersHandler (Except.ok (deliverRows (runUsersQuery table) scanOk)) b).responses =
      [GinResponse.usersJSON 200 (scanUsersLoop (deliverRows (runUsersQuery table) scanOk))] ∧
    (scanUsersLoop (deliverRows (runUsersQuery table) scanOk)).length ≤ 10 ∧
    ∀ u ∈ scanUsersLoop (deliverRows (runUsersQuery table) scanOk),
      (serializeUser u).map Prod.fst = userJSONKeys := by
  refine ⟨rfl, ?_, ?_⟩
  · calc (scanUsersLoop (deliverRows (runUsersQuery table) scanOk)).length
        ≤ (deliverRows (runUsersQuery table) scanOk).length :=
          scanUsersLoop_length_le _
      _ ≤ (runUsersQuery table).length := by
          simp only [deliverRows, List.length_zipWith]
          exact Nat.min_le_left _ _
      _ ≤ 10 := by
          simp only [runUsersQuery, List.length_map, List.length_take]
          exact Nat.min_le_left _ _
  · intro u _
    rfl

/-- C10: on a successful query, every row whose Scan fails is silently
skipped — the handler writes exactly one response, an HTTP 200 carrying the
successfully scanned users in order, and never reports an error to the
client, whatever the mix of scannable and unscannable rows. -/
theorem usersHandler_skipBadRows (rows : List (Option User)) (b : Bool) :
    (getUsersHandler (Except.ok rows) b).responses =
      [GinResponse.usersJSON 200 (rows.filterMap id)] ∧
    (getUsersHandler (Except.ok rows) b).panicked = false ∧
    ∀ status msg,
      GinResponse.errorJSON status msg ∉ (getUsersHandler (Except.ok rows) b).responses := by
  refine ⟨?_, rfl, ?_⟩
  · simp [getUsersHandler, scanUsersLoop_eq_filterMap]
  · intro status msg hmem
    simp [getUsersHandler] at hmem

end Microserv
